import Mathlib

/-!
Verification of the protocol session and tool-dispatch layer of the
mcp-weather-chat repository: a shallow embedding of the gateway session
manager (server.js), the tool registry/dispatcher (weather-mcp-server.js
and real-mcp-weather-server.js), the response cache inside
weather-service.js, and the Claude text-completion wrapper
(claude-service.js), together with theorems settling the spec claims.

External collaborators (the Open-Meteo HTTP endpoints, the Anthropic
completion endpoint, and the JS Date locale formatter) are modelled as
oracle functions carried in an environment, following the spec, which
treats them as data sources returning structured readings.  Numeric
weather readings are modelled at integer precision; on integer values JS
Math.round and toFixed have the exact semantics used below.
-/

namespace WeatherChat

/-- JS string coercion of a possibly-undefined string value:
template interpolation renders undefined as "undefined". -/
def jsStr : Option String → String
  | some s => s
  | none => "undefined"

/-- JS truthiness of a possibly-undefined string
(undefined and "" are falsy). -/
def jsTruthyStr : Option String → Bool
  | some s => !(s = "")
  | none => false

/-- JS truthiness of a possibly-undefined number
(undefined and 0 are falsy). -/
def jsTruthyInt : Option Int → Bool
  | some n => !(n = 0)
  | none => false

/-- JS truthiness of a possibly-undefined nonnegative number. -/
def jsTruthyNat : Option Nat → Bool
  | some n => !(n = 0)
  | none => false

/-- JS string coercion of a possibly-undefined number value. -/
def jsInt : Option Int → String
  | some n => toString n
  | none => "undefined"

/-- JS Number.prototype.toFixed(2) on an integer-valued number. -/
def toFixed2 (n : Int) : String := toString n ++ ".00"

/-- JS Number.prototype.toFixed(4) on an integer-valued number. -/
def toFixed4 (n : Int) : String := toString n ++ ".0000"

/-- Does the character list `n` occur as a leading block of `h`? -/
def prefixMatch : List Char → List Char → Bool
  | [], _ => true
  | _ :: _, [] => false
  | c :: cs, d :: ds => c == d && prefixMatch cs ds

/-- Does the character list `n` occur contiguously anywhere in `h`? -/
def occursIn (n : List Char) : List Char → Bool
  | [] => prefixMatch n []
  | d :: ds => prefixMatch n (d :: ds) || occursIn n ds

/-- JS String.prototype.includes: substring test. -/
def strOccurs (needle hay : String) : Bool := occursIn needle.toList hay.toList

/-- JS String.prototype.toLowerCase, modelled over the character list
(so that it evaluates by reduction). -/
def jsToLower (s : String) : String := ⟨s.data.map Char.toLower⟩

/-- Insert a separator every three digits from the right
(JS Number.prototype.toLocaleString for a nonnegative integer). -/
def groupDigits (l : List Char) : List Char :=
  let r := l.reverse
  let rec go : List Char → List Char
    | a :: b :: c :: d :: rest => a :: b :: c :: ',' :: go (d :: rest)
    | other => other
  (go r).reverse

/-- JS Number.prototype.toLocaleString on a nonnegative integer. -/
def toLocaleString (n : Nat) : String := ⟨groupDigits (toString n).toList⟩

theorem append_ne_empty_left (s t : String) (h : s ≠ "") : s ++ t ≠ "" := by
  cases s with
  | mk ds =>
    cases t with
    | mk dt =>
      cases ds with
      | nil => exact absurd rfl h
      | cons c cs =>
        intro hcontra
        have : (String.mk (c :: cs) ++ String.mk dt).data = "".data := by rw [hcontra]
        simp [String.append] at this

/-! ## Data model (weather-service.js)

Geocoding results as parsed by `WeatherService.geocodeCity`: optional
fields model JS properties that the upstream payload may omit
(`undefined`). -/

structure Location where
  name : String
  country : Option String := none
  admin1 : Option String := none
  latitude : Int := 0
  longitude : Int := 0
  timezone : Option String := none
  population : Option Nat := none
  elevation : Option Int := none
deriving Repr, DecidableEq

/-- The `current` block parsed by `WeatherService.getWeatherForecast`
(readings at integer precision, on which Math.round is the identity). -/
structure CurrentWeather where
  time : String := ""
  temperature : Int := 0
  apparentTemperature : Int := 0
  humidity : Int := 0
  precipitation : Int := 0
  rain : Int := 0
  snowfall : Int := 0
  weatherCode : Nat := 0
  cloudCover : Int := 0
  pressure : Int := 0
  windSpeed : Int := 0
  windDirection : Int := 0
  windGusts : Int := 0
  isDay : Bool := true
deriving Repr, DecidableEq

/-- One element of the `daily` array parsed by `getWeatherForecast`
(the per-day readings consumed by the renderers). -/
structure DailyWeather where
  date : String := ""
  weatherCode : Nat := 0
  temperatureMax : Int := 0
  temperatureMin : Int := 0
  apparentTemperatureMax : Int := 0
  apparentTemperatureMin : Int := 0
  uvIndexMax : Int := 0
  precipitationSum : Int := 0
  precipitationHours : Int := 0
  precipitationProbability : Int := 0
  windSpeedMax : Int := 0
  windGustsMax : Int := 0
  windDirection : Int := 0
deriving Repr, DecidableEq

/-- The structured weather reading returned by the forecast fetch.  The
`location` property is absent (`none`) as fetched and is assigned by
`getWeatherForChat` / `handleGetWeatherByCoords` before rendering,
exactly as the JS code mutates `weatherData.location`. -/
structure WeatherData where
  latitude : Int := 0
  longitude : Int := 0
  timezone : Option String := none
  elevation : Option Int := none
  current : CurrentWeather := {}
  daily : List DailyWeather := []
  location : Option Location := none
deriving Repr, DecidableEq

/-- The two kinds of payload stored in the single cache Map: geocoding
results under keys with prefix "geocode_", parsed forecasts under keys
with prefix "forecast_".  The two key families are disjoint strings, so
each key only ever holds its own kind. -/
inductive CVal where
  | geo (locations : List Location)
  | fc (data : WeatherData)
deriving Repr, DecidableEq

/-- A cache entry: `{ data, timestamp }` as stored by `cache.set`. -/
structure CacheEntry where
  data : CVal
  timestamp : Nat
deriving Repr, DecidableEq

/-- Mutable state of a `WeatherService` instance: the cache Map plus two
instrumentation counters recording how many times each provider endpoint
was invoked (the call-counting stand-in the spec asks tests to use). -/
structure WSState where
  cache : List (String × CacheEntry) := []
  geoCalls : Nat := 0
  fcCalls : Nat := 0
deriving Repr, DecidableEq

/-- JS `Map.prototype.get` over the association-list model. -/
def cacheLookup (key : String) (c : List (String × CacheEntry)) : Option CacheEntry :=
  List.lookup key c

/-- JS `Map.prototype.set`: overwrite any previous binding of `key`. -/
def cacheSet (key : String) (e : CacheEntry) (c : List (String × CacheEntry)) :
    List (String × CacheEntry) :=
  (key, e) :: c.filter (fun p => p.1 ≠ key)

/-- `this.cacheTimeout = 10 * 60 * 1000` (milliseconds). -/
def cacheTimeout : Nat := 10 * 60 * 1000

/-- The geocoding freshness window, `this.cacheTimeout * 6`
("Cache geocoding longer"). -/
def geocodeCacheTimeout : Nat := cacheTimeout * 6

/-- The inlined cache-freshness read both fetchers perform:
return the stored data if the key is present and
`now - timestamp < ttl`, otherwise nothing.  (JS computes a possibly
negative difference; truncated Nat subtraction yields the same verdict
because both a negative difference and 0 are below the positive TTL.) -/
def cacheGet (c : List (String × CacheEntry)) (now : Nat) (key : String) (ttl : Nat) :
    Option CVal :=
  match cacheLookup key c with
  | some e => if now - e.timestamp < ttl then some e.data else none
  | none => none

/-! ## External collaborators as oracles -/

/-- The Anthropic completion endpoint: prompt in, text out, or a
provider failure (`client.messages.create` rejecting). -/
structure ClaudeOracle where
  complete : String → Except String String

/-- Environment of external collaborators: the geocoding endpoint, the
forecast endpoint (returning structured readings, as the spec treats the
weather data source), the optional Claude service (`null` when the
constructor threw for a missing key), and the JS Date locale formatter
used by the renderers.  The two HTTP oracles are indexed by the
invocation counter so a stand-in may answer differently per call. -/
structure Env where
  geo : Nat → Option String → Nat → Except String (List Location)
  fc : Nat → Option Int → Option Int → Int → Except String WeatherData
  claude : Option ClaudeOracle := none
  weekdayOf : String → String := fun _ => "Mon"
  monthDayOf : String → String := fun _ => "Jan 1"

/-! ## WeatherService (mcp-server/weather-service.js) -/

/-- The cache key built by `geocodeCity`. -/
def geocodeKey (city : Option String) (count : Nat) : String :=
  "geocode_" ++ jsStr city ++ "_" ++ toString count

/-- The cache key built by `getWeatherForecast`. -/
def forecastKey (latitude longitude : Option Int) (days : Int) : String :=
  "forecast_" ++ jsInt latitude ++ "_" ++ jsInt longitude ++ "_" ++ toString days

/-- `WeatherService.geocodeCity(city, count = 1)`: serve a fresh cache
hit; otherwise invoke the geocoding endpoint (incrementing the contact
counter even when the HTTP call fails), cache and return the parsed
locations, or rethrow the failure with the `Failed to geocode` message.
A fresh entry of the forecast kind cannot occur under a geocode key (the
key families are disjoint); that branch falls through to the fetch. -/
def geocodeCity (env : Env) (st : WSState) (now : Nat) (city : Option String)
    (count : Nat) : WSState × Except String (List Location) :=
  let cacheKey := geocodeKey city count
  match cacheGet st.cache now cacheKey geocodeCacheTimeout with
  | some (.geo locations) => (st, .ok locations)
  | _ =>
    match env.geo st.geoCalls city count with
    | .error e =>
        ({ st with geoCalls := st.geoCalls + 1 },
         .error ("Failed to geocode " ++ jsStr city ++ ": " ++ e))
    | .ok locations =>
        ({ st with
            cache := cacheSet cacheKey ⟨.geo locations, now⟩ st.cache,
            geoCalls := st.geoCalls + 1 },
         .ok locations)

/-- `WeatherService.getWeatherForecast(latitude, longitude, days = 7)`:
analogous cache-or-fetch on the forecast endpoint, with the short TTL. -/
def getWeatherForecast (env : Env) (st : WSState) (now : Nat)
    (latitude longitude : Option Int) (days : Int) :
    WSState × Except String WeatherData :=
  let cacheKey := forecastKey latitude longitude days
  match cacheGet st.cache now cacheKey cacheTimeout with
  | some (.fc data) => (st, .ok data)
  | _ =>
    match env.fc st.fcCalls latitude longitude days with
    | .error e =>
        ({ st with fcCalls := st.fcCalls + 1 },
         .error ("Failed to get forecast for coordinates " ++ jsInt latitude ++ ", "
           ++ jsInt longitude ++ ": " ++ e))
    | .ok result =>
        ({ st with
            cache := cacheSet cacheKey ⟨.fc result, now⟩ st.cache,
            fcCalls := st.fcCalls + 1 },
         .ok result)

/-- `WeatherService.clearCache()`. -/
def clearCache (st : WSState) : WSState := { st with cache := [] }

/-- WMO weather-code table shared verbatim by `WeatherService` and
`ClaudeService.getWeatherDescription`. -/
def getWeatherDescription (code : Nat) : String :=
  match code with
  | 0 => "Clear sky"
  | 1 => "Mainly clear"
  | 2 => "Partly cloudy"
  | 3 => "Overcast"
  | 45 => "Fog"
  | 48 => "Depositing rime fog"
  | 51 => "Light drizzle"
  | 53 => "Moderate drizzle"
  | 55 => "Dense drizzle"
  | 56 => "Light freezing drizzle"
  | 57 => "Dense freezing drizzle"
  | 61 => "Slight rain"
  | 63 => "Moderate rain"
  | 65 => "Heavy rain"
  | 66 => "Light freezing rain"
  | 67 => "Heavy freezing rain"
  | 71 => "Slight snow fall"
  | 73 => "Moderate snow fall"
  | 75 => "Heavy snow fall"
  | 77 => "Snow grains"
  | 80 => "Slight rain showers"
  | 81 => "Moderate rain showers"
  | 82 => "Violent rain showers"
  | 85 => "Slight snow showers"
  | 86 => "Heavy snow showers"
  | 95 => "Thunderstorm"
  | 96 => "Thunderstorm with slight hail"
  | 99 => "Thunderstorm with heavy hail"
  | c => "Weather code " ++ toString c

/-- The `{ response, weatherData, type }` record the chat formatters
return. -/
structure ChatSuccess where
  response : String
  weatherData : WeatherData
  ty : String
deriving Repr, DecidableEq

/-- Result of `getWeatherForChat`: the `{ error: true, message }` shape
or the formatter record. -/
inductive ChatOutcome where
  | failure (message : String)
  | success (s : ChatSuccess)
deriving Repr, DecidableEq

/-- `WeatherService.formatCurrentWeatherForChat(weatherData)`.  The
destructuring of `location` throws a TypeError when the property was
never assigned; every embedded caller assigns it first. -/
def formatCurrentWeatherForChat (wd : WeatherData) : Except String ChatSuccess :=
  match wd.location with
  | none => .error "TypeError: Cannot read properties of undefined"
  | some location =>
    let current := wd.current
    let weatherDescription := getWeatherDescription current.weatherCode
    let r := "**Current Weather in " ++ location.name
    let r := r ++ (if jsTruthyStr location.admin1 then ", " ++ jsStr location.admin1 else "")
    let r := r ++ ", " ++ jsStr location.country ++ "**\n\n"
    let r := r ++ "🌡️ **Temperature:** " ++ toString current.temperature
      ++ "°C (feels like " ++ toString current.apparentTemperature ++ "°C)\n"
    let r := r ++ "☁️ **Condition:** " ++ weatherDescription ++ "\n"
    let r := r ++ "💧 **Humidity:** " ++ toString current.humidity ++ "%\n"
    let r := r ++ "🌬️ **Wind:** " ++ toString current.windSpeed ++ " km/h"
    let r := r ++ (if current.windGusts > 0 then
        " (gusts up to " ++ toString current.windGusts ++ " km/h)" else "")
    let r := r ++ "\n"
    let r := r ++ "📊 **Pressure:** " ++ toString current.pressure ++ " hPa\n"
    let r := r ++ "☁️ **Cloud Cover:** " ++ toString current.cloudCover ++ "%\n"
    let r := r ++ (if current.precipitation > 0 then
        "🌧️ **Precipitation:** " ++ toString current.precipitation ++ " mm\n" else "")
    let timeOfDay := if current.isDay then "☀️ Day" else "🌙 Night"
    let r := r ++ "🕐 **Time of Day:** " ++ timeOfDay ++ "\n"
    let r := r ++ "\n📍 **Location:** " ++ toFixed2 location.latitude ++ "°, "
      ++ toFixed2 location.longitude ++ "°"
    let r := r ++ (if jsTruthyInt location.elevation then
        " (" ++ jsInt location.elevation ++ "m elevation)" else "")
    .ok ⟨r, wd, "current"⟩

/-- One iteration of the `daily.slice(0, 7).forEach` loop in
`formatForecastForChat`. -/
def forecastDayLine (env : Env) (index : Nat) (day : DailyWeather) : String :=
  let dayName := if index = 0 then "Today" else env.weekdayOf day.date
  let dateStr := env.monthDayOf day.date
  let weatherDesc := getWeatherDescription day.weatherCode
  let r := "📅 **" ++ dayName ++ ", " ++ dateStr ++ "**\n"
  let r := r ++ "   🌡️ " ++ toString day.temperatureMin ++ "° - "
    ++ toString day.temperatureMax ++ "°C\n"
  let r := r ++ "   ☁️ " ++ weatherDesc ++ "\n"
  let r := r ++ (if day.precipitationSum > 0 then
      "   🌧️ " ++ toString day.precipitationSum ++ "mm rain"
        ++ (if day.precipitationProbability > 0 then
            " (" ++ toString day.precipitationProbability ++ "% chance)" else "")
        ++ "\n"
    else "")
  let r := r ++ (if day.windSpeedMax > 10 then
      "   💨 Wind up to " ++ toString day.windSpeedMax ++ " km/h\n" else "")
  r ++ "\n"

/-- `WeatherService.formatForecastForChat(weatherData)`. -/
def formatForecastForChat (env : Env) (wd : WeatherData) : Except String ChatSuccess :=
  match wd.location with
  | none => .error "TypeError: Cannot read properties of undefined"
  | some location =>
    let r := "**7-Day Weather Forecast for " ++ location.name
    let r := r ++ (if jsTruthyStr location.admin1 then ", " ++ jsStr location.admin1 else "")
    let r := r ++ ", " ++ jsStr location.country ++ "**\n\n"
    let r := r ++ String.join
      (((wd.daily.take 7).enum).map (fun p => forecastDayLine env p.1 p.2))
    .ok ⟨r, wd, "forecast"⟩

/-- `WeatherService.getWeatherForChat(city, includeForecast = false)`:
geocode, take the first location, fetch the forecast for its
coordinates, attach the location, and format; any thrown failure is
caught and folded into `{ error: true, message }`.  (The signature has
no third parameter: a `useFahrenheit` argument passed by a caller is
silently discarded by JS.) -/
def getWeatherForChat (env : Env) (st : WSState) (now : Nat) (city : Option String)
    (includeForecast : Bool) : WSState × ChatOutcome :=
  match geocodeCity env st now city 1 with
  | (st1, .error e) => (st1, .failure e)
  | (st1, .ok locations) =>
    match locations with
    | [] =>
        (st1, .failure ("Could not find location for \"" ++ jsStr city
          ++ "\". Please check the city name and try again."))
    | location :: _ =>
      match getWeatherForecast env st1 now (some location.latitude)
          (some location.longitude) (if includeForecast then 7 else 1) with
      | (st2, .error e) => (st2, .failure e)
      | (st2, .ok weatherData) =>
        let wd := { weatherData with location := some location }
        match (if includeForecast then formatForecastForChat env wd
               else formatCurrentWeatherForChat wd) with
        | .error e => (st2, .failure e)
        | .ok s => (st2, .success s)

/-! ## ClaudeService (mcp-server/claude-service.js)

The analysis methods build a prompt, call the completion endpoint, and
catch any provider failure by falling back to the deterministic
template renderers below; the only uncaught failure is the TypeError a
fallback itself raises on an empty `daily` array. -/

namespace ClaudeService

/-- The prompt built by `analyzeCurrentWeather`. -/
def mkCurrentWeatherPrompt (wd : WeatherData) (city : String) : String :=
  "You are a helpful weather assistant. Analyze this current weather data for "
  ++ city ++ " and provide a conversational, helpful response.\n\n"
  ++ "Weather Data:\n"
  ++ "- Temperature: " ++ toString wd.current.temperature ++ "°C (feels like "
  ++ toString wd.current.apparentTemperature ++ "°C)\n"
  ++ "- Condition: " ++ getWeatherDescription wd.current.weatherCode ++ "\n"
  ++ "- Humidity: " ++ toString wd.current.humidity ++ "%\n"
  ++ "- Wind: " ++ toString wd.current.windSpeed ++ " km/h\n"
  ++ "- Pressure: " ++ toString wd.current.pressure ++ " hPa\n"
  ++ "- Cloud Cover: " ++ toString wd.current.cloudCover ++ "%\n"
  ++ "- Time: " ++ (if wd.current.isDay then "Day" else "Night") ++ "\n"
  ++ (if wd.current.precipitation > 0 then
      "- Precipitation: " ++ toString wd.current.precipitation ++ "mm" else "")
  ++ "\n\nPlease provide:\n1. A friendly summary of current conditions\n"
  ++ "2. What it feels like outside\n"
  ++ "3. Any practical advice (clothing, activities, etc.)\n"
  ++ "4. Keep it conversational and helpful (2-3 sentences)\n\n"
  ++ "Format as natural conversational text, not bullet points."

/-- One forecast line of the prompt built by `analyzeWeatherForecast`. -/
def forecastPromptLine (weekdayOf : String → String) (index : Nat)
    (day : DailyWeather) : String :=
  (if index = 0 then "Today" else weekdayOf day.date) ++ ": "
  ++ toString day.temperatureMin ++ "-" ++ toString day.temperatureMax ++ "°C, "
  ++ getWeatherDescription day.weatherCode
  ++ (if day.precipitationSum > 0 then
      ", " ++ toString day.precipitationSum ++ "mm rain" else "")

/-- The prompt built by `analyzeWeatherForecast`. -/
def mkForecastPrompt (weekdayOf : String → String) (wd : WeatherData)
    (city : String) : String :=
  "You are a helpful weather assistant. Analyze this 7-day weather forecast for "
  ++ city ++ " and provide useful insights.\n\n"
  ++ "Current Weather:\n- " ++ toString wd.current.temperature ++ "°C, "
  ++ getWeatherDescription wd.current.weatherCode ++ "\n\n7-Day Forecast:\n"
  ++ String.intercalate "\n"
      (((wd.daily.enum).take 7).map (fun p => forecastPromptLine weekdayOf p.1 p.2))
  ++ "\n\nPlease provide:\n1. A summary of the weekly weather pattern\n"
  ++ "2. Highlight any significant changes or notable weather\n"
  ++ "3. Practical advice for planning activities\n"
  ++ "4. Best and worst days in the forecast\n"
  ++ "5. Keep it conversational and helpful (3-4 sentences)\n\n"
  ++ "Format as natural conversational text, not bullet points."

/-- `ClaudeService.fallbackCurrentWeatherResponse(weatherData, city)`:
the deterministic template used when the completion endpoint fails. -/
def fallbackCurrentWeatherResponse (wd : WeatherData) (city : String) : String :=
  let temp := wd.current.temperature
  let condition := getWeatherDescription wd.current.weatherCode
  let feelsLike := wd.current.apparentTemperature
  let r := "The current weather in " ++ city ++ " is " ++ toString temp
    ++ "°C with " ++ jsToLower condition
  let r := r ++ (if (temp - feelsLike).natAbs > 3 then
      ", though it feels like " ++ toString feelsLike ++ "°C" else "")
  let r := r ++ ". "
  let r := r ++ (if wd.current.precipitation > 0 then
      "It\x27s currently raining, so you\x27ll want an umbrella. " else "")
  r ++ (if temp < 10 then "It\x27s quite chilly - dress warmly!"
    else if temp > 25 then "It\x27s quite warm - perfect for outdoor activities!"
    else "Pleasant weather overall!")

/-- `ClaudeService.fallbackForecastResponse(weatherData, city)`.
Reading `daily[0].temperatureMin` on an empty `daily` array raises a
TypeError, which propagates out of the catch block that invoked this
fallback. -/
def fallbackForecastResponse (wd : WeatherData) (city : String) :
    Except String String :=
  match wd.daily with
  | [] => .error "TypeError: Cannot read properties of undefined (reading temperatureMin)"
  | today :: rest =>
    let r := "The forecast for " ++ city ++ " shows "
    let r := r ++ toString today.temperatureMin ++ "-" ++ toString today.temperatureMax
      ++ "°C today with " ++ jsToLower (getWeatherDescription today.weatherCode)
    let r := r ++ (match rest.head? with
      | some tomorrow => ", and " ++ toString tomorrow.temperatureMin ++ "-"
          ++ toString tomorrow.temperatureMax ++ "°C tomorrow with "
          ++ jsToLower (getWeatherDescription tomorrow.weatherCode)
      | none => "")
    let rainDays := ((wd.daily.take 7).filter (fun day => day.precipitationSum > 0)).length
    .ok (r ++ (if rainDays > 3 then ". Expect several rainy days this week."
      else if rainDays > 0 then ". Some rain is expected during the week."
      else ". Looks like a dry week ahead!"))

/-- `ClaudeService.analyzeCurrentWeather(weatherData, city)`: on any
completion failure, return the deterministic fallback (never throws). -/
def analyzeCurrentWeather (o : ClaudeOracle) (wd : WeatherData) (city : String) :
    String :=
  match o.complete (mkCurrentWeatherPrompt wd city) with
  | .ok text => text
  | .error _ => fallbackCurrentWeatherResponse wd city

/-- `ClaudeService.analyzeWeatherForecast(weatherData, city)`: on a
completion failure, fall back to `fallbackForecastResponse`, whose own
TypeError (empty `daily`) is the only failure that escapes. -/
def analyzeWeatherForecast (o : ClaudeOracle) (weekdayOf : String → String)
    (wd : WeatherData) (city : String) : Except String String :=
  match o.complete (mkForecastPrompt weekdayOf wd city) with
  | .ok text => .ok text
  | .error _ => fallbackForecastResponse wd city

/-- The prompt built by `analyzeLocationWeather`, abridged to the two
day-count shapes of the source template. -/
def mkLocationPrompt (weekdayOf : String → String) (wd : WeatherData)
    (latitude longitude : Int) (days : Int) : String :=
  if days = 1 then
    "You are a weather assistant. Analyze the current weather for coordinates "
    ++ toFixed2 latitude ++ ", " ++ toFixed2 longitude ++ ".\n\nWeather Data:\n"
    ++ "- Temperature: " ++ toString wd.current.temperature ++ "°C (feels like "
    ++ toString wd.current.apparentTemperature ++ "°C)\n"
    ++ "- Condition: " ++ getWeatherDescription wd.current.weatherCode ++ "\n"
    ++ "- Humidity: " ++ toString wd.current.humidity ++ "%\n"
    ++ "- Wind: " ++ toString wd.current.windSpeed ++ " km/h\n\n"
    ++ "Provide a helpful summary of current conditions and practical advice. Keep it brief and conversational."
  else
    "You are a weather assistant. Analyze this " ++ toString days
    ++ "-day forecast for coordinates " ++ toFixed2 latitude ++ ", "
    ++ toFixed2 longitude ++ ".\n\nForecast Overview:\n"
    ++ String.intercalate "\n"
        (((wd.daily.take days.toNat).enum).map (fun p =>
          (if p.1 = 0 then "Today" else weekdayOf p.2.date) ++ ": "
          ++ toString p.2.temperatureMin ++ "-" ++ toString p.2.temperatureMax
          ++ "°C, " ++ getWeatherDescription p.2.weatherCode))
    ++ "\n\nProvide a helpful forecast summary with practical insights. Keep it conversational."

/-- `ClaudeService.analyzeLocationWeather(weatherData, lat, lon, days)`:
on completion failure, fall back to the current-weather template
(`days === 1`) or the forecast template (otherwise). -/
def analyzeLocationWeather (o : ClaudeOracle) (weekdayOf : String → String)
    (wd : WeatherData) (latitude longitude : Int) (days : Int) :
    Except String String :=
  match o.complete (mkLocationPrompt weekdayOf wd latitude longitude days) with
  | .ok text => .ok text
  | .error _ =>
    if days = 1 then
      .ok (fallbackCurrentWeatherResponse wd
        ("coordinates " ++ toFixed2 latitude ++ ", " ++ toFixed2 longitude))
    else
      fallbackForecastResponse wd
        ("coordinates " ++ toFixed2 latitude ++ ", " ++ toFixed2 longitude)

/-- The prompt built by `answerWeatherQuestion`. -/
def mkQuestionPrompt (question : String) (wd : Option WeatherData)
    (city : Option String) : String :=
  "You are a helpful weather assistant. Answer this weather-related question: \""
  ++ question ++ "\""
  ++ (match wd with
    | some w =>
      if jsTruthyStr city then
        "\n\nHere\x27s current weather context for " ++ jsStr city ++ ":\n"
        ++ "- Temperature: " ++ toString w.current.temperature ++ "°C\n"
        ++ "- Condition: " ++ getWeatherDescription w.current.weatherCode ++ "\n"
        ++ "- Humidity: " ++ toString w.current.humidity ++ "%\n"
        ++ "- Wind: " ++ toString w.current.windSpeed ++ " km/h"
      else ""
    | none => "")
  ++ "\n\nProvide a helpful, conversational response. If you need specific location information, mention that."

/-- `ClaudeService.answerWeatherQuestion(question, weatherData, city)`:
on completion failure, return a fixed request for a location
(never throws). -/
def answerWeatherQuestion (o : ClaudeOracle) (question : String)
    (wd : Option WeatherData) (city : Option String) : String :=
  match o.complete (mkQuestionPrompt question wd city) with
  | .ok text => text
  | .error _ =>
    "I\x27d be happy to help with weather questions! Could you specify a location so I can provide accurate information?"

end ClaudeService

/-! ## Tool registry and dispatcher (weather-mcp-server.js) -/

/-- One typed content block of the MCP envelope. -/
structure ContentBlock where
  type : String
  text : String
deriving Repr, DecidableEq

/-- The uniform result envelope every tool call returns.  Optional JS
properties that a handler may leave absent are modelled as `Option`
fields defaulting to `none`; an absent `isError` is falsy in JS and is
modelled as `false`. -/
structure ToolResult where
  content : List ContentBlock
  isError : Bool := false
  weatherData : Option WeatherData := none
  type : Option String := none
  aiAnalyzed : Option Bool := none
  locations : Option (List Location) := none
  count : Option Nat := none
deriving Repr, DecidableEq

/-- The loosely-typed `arguments` mapping of a tools/call request: each
known parameter is present or `undefined`; unknown extras are ignored by
the handlers and need no representation. -/
structure Args where
  city : Option String := none
  days : Option Int := none
  latitude : Option Int := none
  longitude : Option Int := none
  count : Option Nat := none
  question : Option String := none
deriving Repr, DecidableEq

namespace WeatherMCPServer

/-- `handleGetWeather(city)`: fetch-and-format, throwing the service
message on `result.error`; prefer the Claude analysis (which itself
never throws, falling back internally) and otherwise the template
response. -/
def handleGetWeather (env : Env) (st : WSState) (now : Nat) (city : Option String) :
    WSState × Except String ToolResult :=
  match getWeatherForChat env st now city false with
  | (st1, .failure message) => (st1, .error message)
  | (st1, .success result) =>
    let intelligentResponse :=
      match env.claude with
      | some o => ClaudeService.analyzeCurrentWeather o result.weatherData (jsStr city)
      | none => result.response
    (st1, .ok { content := [⟨"text", intelligentResponse⟩],
                weatherData := some result.weatherData,
                type := some result.ty,
                aiAnalyzed := some env.claude.isSome })

/-- `handleGetForecast(city, days = 7)`: as `handleGetWeather` with the
forecast formatter; the `days` parameter is accepted (defaulting to 7)
but unused by the body, which always requests the 7-day chat format.
The catch around the Claude analysis falls back to the template
response. -/
def handleGetForecast (env : Env) (st : WSState) (now : Nat) (city : Option String)
    (days : Option Int) : WSState × Except String ToolResult :=
  match getWeatherForChat env st now city true with
  | (st1, .failure message) => (st1, .error message)
  | (st1, .success result) =>
    let intelligentResponse :=
      match env.claude with
      | some o =>
        match ClaudeService.analyzeWeatherForecast o env.weekdayOf
            result.weatherData (jsStr city) with
        | .ok text => text
        | .error _ => result.response
      | none => result.response
    (st1, .ok { content := [⟨"text", intelligentResponse⟩],
                weatherData := some result.weatherData,
                type := some result.ty,
                aiAnalyzed := some env.claude.isSome })

/-- `handleGetWeatherByCoords(latitude, longitude, days = 1)`: fetch by
coordinates, attach the mock location (whose construction throws a
TypeError when either coordinate is `undefined` — `toFixed` on
undefined), analyze with fallback to the basic formatters. -/
def handleGetWeatherByCoords (env : Env) (st : WSState) (now : Nat)
    (latitude longitude : Option Int) (daysArg : Option Int) :
    WSState × Except String ToolResult :=
  let days := daysArg.getD 1
  match getWeatherForecast env st now latitude longitude days with
  | (st1, .error e) => (st1, .error e)
  | (st1, .ok weatherData) =>
    match latitude, longitude with
    | some la, some lo =>
      let mockLocation : Location :=
        { name := "Location (" ++ toFixed2 la ++ ", " ++ toFixed2 lo ++ ")",
          latitude := la, longitude := lo }
      let wd := { weatherData with location := some mockLocation }
      let basic : Except String String :=
        if days = 1 then
          (formatCurrentWeatherForChat wd).map (fun s => s.response)
        else
          (formatForecastForChat env wd).map (fun s => s.response)
      let analyzed : Except String String :=
        match env.claude with
        | some o =>
          match ClaudeService.analyzeLocationWeather o env.weekdayOf wd la lo days with
          | .ok text => .ok text
          | .error _ => basic
        | none => basic
      match analyzed with
      | .error e => (st1, .error e)
      | .ok intelligentResponse =>
        (st1, .ok { content := [⟨"text", intelligentResponse⟩],
                    weatherData := some wd,
                    type := some (if days = 1 then "current" else "forecast"),
                    aiAnalyzed := some env.claude.isSome })
    | _, _ => (st1, .error "TypeError: latitude.toFixed is not a function")

/-- The fixed apology returned by `handleWeatherQuestion` when the
Claude service is not configured. -/
def aiUnavailableText : String :=
  "I\x27d be happy to help with weather questions! However, AI analysis is not available right now. Try asking about specific weather data for a city."

/-- `handleWeatherQuestion(question, city = null)`: without a Claude
service, return the fixed apology (no `isError` property — a
success-shaped result).  Otherwise optionally fetch weather context for
the city (failures ignored) and answer; `answerWeatherQuestion` handles
its own failures, so the catch branch of the source is unreachable. -/
def handleWeatherQuestion (env : Env) (st : WSState) (now : Nat)
    (question : Option String) (city : Option String) :
    WSState × Except String ToolResult :=
  match env.claude with
  | none =>
    (st, .ok { content := [⟨"text", aiUnavailableText⟩], aiAnalyzed := some false })
  | some o =>
    let fetched : WSState × Option WeatherData :=
      if jsTruthyStr city then
        match getWeatherForChat env st now city false with
        | (st1, .success s) => (st1, some s.weatherData)
        | (st1, .failure _) => (st1, none)
      else (st, none)
    let intelligentResponse :=
      ClaudeService.answerWeatherQuestion o (jsStr question) fetched.2 city
    (fetched.1, .ok { content := [⟨"text", intelligentResponse⟩],
                      weatherData := fetched.2,
                      type := some "question",
                      aiAnalyzed := some true })

/-- One line of the `locations.forEach` loop in `handleGeocodeCity`. -/
def geocodeLine (index : Nat) (location : Location) : String :=
  let r := toString (index + 1) ++ ". **" ++ location.name
  let r := r ++ (if jsTruthyStr location.admin1 then ", " ++ jsStr location.admin1 else "")
  let r := r ++ ", " ++ jsStr location.country ++ "**\n"
  let r := r ++ "   📍 " ++ toFixed4 location.latitude ++ ", "
    ++ toFixed4 location.longitude ++ "\n"
  let r := r ++ (if jsTruthyNat location.population then
      "   👥 Population: " ++ toLocaleString (location.population.getD 0) ++ "\n" else "")
  let r := r ++ (if jsTruthyInt location.elevation then
      "   ⛰️ Elevation: " ++ jsInt location.elevation ++ "m\n" else "")
  r ++ "   🕰️ Timezone: " ++ jsStr location.timezone ++ "\n\n"

/-- `handleGeocodeCity(city, count = 1)`. -/
def handleGeocodeCity (env : Env) (st : WSState) (now : Nat) (city : Option String)
    (countArg : Option Nat) : WSState × Except String ToolResult :=
  let count := countArg.getD 1
  match geocodeCity env st now city count with
  | (st1, .error e) => (st1, .error e)
  | (st1, .ok locations) =>
    let response := "**Geocoding results for \"" ++ jsStr city ++ "\":**\n\n"
    let response := response ++
      (if locations.length = 0 then "No locations found."
       else String.join (locations.enum.map (fun p => geocodeLine p.1 p.2)))
    (st1, .ok { content := [⟨"text", response⟩],
                locations := some locations,
                count := some locations.length })

/-- The names the dispatcher switch recognizes. -/
def registeredToolNames : List String :=
  ["get_weather", "get_forecast", "get_weather_by_coords",
   "geocode_city", "ask_weather_question"]

/-- The try-block of `callTool`: the switch over tool names, with an
unknown name throwing `Unknown tool: <name>`. -/
def callToolBody (env : Env) (st : WSState) (now : Nat) (toolName : String)
    (args : Args) : WSState × Except String ToolResult :=
  if toolName = "get_weather" then
    handleGetWeather env st now args.city
  else if toolName = "get_forecast" then
    handleGetForecast env st now args.city args.days
  else if toolName = "get_weather_by_coords" then
    handleGetWeatherByCoords env st now args.latitude args.longitude args.days
  else if toolName = "geocode_city" then
    handleGeocodeCity env st now args.city args.count
  else if toolName = "ask_weather_question" then
    handleWeatherQuestion env st now args.question args.city
  else
    (st, .error ("Unknown tool: " ++ toolName))

/-- The catch-block conversion of `callTool`: any thrown failure becomes
an error-shaped envelope with a single text block. -/
def errorEnvelope (toolName e : String) : ToolResult :=
  { content := [⟨"text", "Error calling tool " ++ toolName ++ ": " ++ e⟩],
    isError := true }

/-- `WeatherMCPServer.callTool(toolName, args)`: run the switch inside
try/catch, converting every thrown failure into the error envelope, so
no exception crosses the dispatcher boundary. -/
def callTool (env : Env) (st : WSState) (now : Nat) (toolName : String)
    (args : Args) : WSState × ToolResult :=
  match callToolBody env st now toolName args with
  | (st1, .ok result) => (st1, result)
  | (st1, .error e) => (st1, errorEnvelope toolName e)

end WeatherMCPServer

/-! ## SDK-based server (mcp-server/real-mcp-weather-server.js)

The variant that registers `get_weather_fahrenheit` /
`get_forecast_fahrenheit` and the keyword heuristic.  Its
`handleGetWeather(city, useFahrenheit = false)` invokes
`this.weatherService.getWeatherForChat(city, false, useFahrenheit)`,
but `getWeatherForChat` is declared with two parameters
`(city, includeForecast)`, so JS silently discards the third argument:
the embedded call below therefore passes only the first two. -/

namespace RealMCP

/-- The fixed keyword list of `detectFahrenheitPreference` (duplicates
as in the source). -/
def fahrenheitKeywords : List String :=
  ["fahrenheit", "farenheit", "f", "°f", "degrees fahrenheit",
   "in fahrenheit", "convert to fahrenheit", "show fahrenheit",
   "f instead of c", "fahrenheit instead of celsius",
   "in f", "in f instead of c", "f instead of celsius",
   "fahrenheit instead of c", "f instead of c"]

/-- `detectFahrenheitPreference(userMessage)`: false on a falsy message,
otherwise a case-insensitive substring match against the fixed keyword
list. -/
def detectFahrenheitPreference (userMessage : Option String) : Bool :=
  if !(jsTruthyStr userMessage) then false
  else
    let lowerMessage := jsToLower (jsStr userMessage)
    fahrenheitKeywords.any (fun keyword => strOccurs keyword lowerMessage)

/-- `RealMCPWeatherServer.handleGetWeather(city, useFahrenheit = false)`
— the handler behind both `get_weather` (flag false) and
`get_weather_fahrenheit` (flag true).  The `useFahrenheit` argument is
forwarded to `getWeatherForChat` but dropped there (two-parameter
signature), so it does not reach the renderers. -/
def handleGetWeather (env : Env) (st : WSState) (now : Nat) (city : Option String)
    (useFahrenheit : Bool := false) : WSState × ToolResult :=
  match getWeatherForChat env st now city false with
  | (st1, .failure message) =>
    (st1, { content := [⟨"text", "Error getting weather for " ++ jsStr city
              ++ ": " ++ message⟩], isError := true })
  | (st1, .success result) =>
    let intelligentResponse :=
      match env.claude with
      | some o => ClaudeService.analyzeCurrentWeather o result.weatherData (jsStr city)
      | none => result.response
    (st1, { content := [⟨"text", intelligentResponse⟩] })

end RealMCP

/-! ## Gateway session manager (server.js)

The module-level `mcpSessionId` plus `initializeMCPSession` and
`callMCPTool`.  The provider (the MCP HTTP server) is an oracle indexed
by invocation counters; the state additionally records, for each
dispatched tools/call request, the `mcp-session-id` header it carried
(`none` when the header was omitted).  The unbounded retry recursion of
the source is embedded with explicit fuel: `diverge` marks executions
that exhaust any finite recursion budget. -/

namespace Gateway

/-- Outcome of one `initialize` round trip: the POST fails outright, or
it yields an optional `mcp-session-id` response header together with
whether the SSE body parsed to a `result` (the session id is stored
before the body is inspected, as in the source). -/
inductive InitResult where
  | netFail
  | ok (sid : Option String) (hasResult : Bool)
deriving Repr, DecidableEq

/-- Outcome of one tools/call POST as seen by the gateway:
an HTTP 400 rejection, another HTTP error status (with the optional
`error.message` of the body), no response at all, a 2xx body carrying a
JSON-RPC `error`, a 2xx body with neither `error` nor `result`, or a
`result`. -/
inductive ToolCallResult where
  | status400
  | httpError (msg : Option String)
  | noResponse
  | bodyError (msg : Option String)
  | malformed
  | result (r : String)
deriving Repr, DecidableEq

/-- The MCP provider as an oracle over invocation counters. -/
structure MCPProvider where
  init : Nat → InitResult
  call : Nat → ToolCallResult

/-- Gateway state: the cached session id, invocation counters for the
two request kinds, and the instrumentation trace of session headers
attached to dispatched tools/call requests. -/
structure GatewayState where
  mcpSessionId : Option String := none
  initCount : Nat := 0
  callCount : Nat := 0
  dispatches : List (Option String) := []
deriving Repr, DecidableEq

/-- `initializeMCPSession()`: return the cached id if present; otherwise
perform the handshake, store the response header (even when the body
then fails to parse), and succeed only if the body carried a `result`.
The Bool is false exactly when the source throws
`Failed to connect to MCP server`. -/
def initializeMCPSession (p : MCPProvider) (st : GatewayState) :
    GatewayState × Bool :=
  if st.mcpSessionId.isSome then (st, true)
  else
    match p.init st.initCount with
    | .netFail => ({ st with initCount := st.initCount + 1 }, false)
    | .ok sid hasResult =>
        ({ st with mcpSessionId := sid, initCount := st.initCount + 1 }, hasResult)

/-- Outcome of `callMCPTool`. -/
inductive CallOutcome where
  | ok (r : String)
  | err (msg : String)
  | diverge
deriving Repr, DecidableEq

/-- `callMCPTool(toolName, args)` with explicit fuel for the retry
recursion.  After a successful `initializeMCPSession`, the tools/call
request is dispatched carrying the stored session id as the
`mcp-session-id` header when one is stored (recorded in `dispatches`).
An HTTP 400 rejection nulls the stored id and recurses with no retry
counter, exactly as the source; all other failures are rethrown with the
messages of the source's catch chain.  A failed initialization throws a
plain Error, which the catch converts to a `Request error`. -/
def callMCPTool (p : MCPProvider) (toolName : String) :
    Nat → GatewayState → GatewayState × CallOutcome
  | 0, st => (st, .diverge)
  | fuel + 1, st =>
    match initializeMCPSession p st with
    | (st1, false) => (st1, .err "Request error: Failed to connect to MCP server")
    | (st1, true) =>
      let st2 := { st1 with
        dispatches := st1.dispatches ++ [st1.mcpSessionId],
        callCount := st1.callCount + 1 }
      match p.call st1.callCount with
      | .status400 =>
          callMCPTool p toolName fuel { st2 with mcpSessionId := none }
      | .httpError m => (st2, .err (m.getD "MCP server error"))
      | .noResponse =>
          (st2, .err "MCP server is not responding. Make sure it\x27s running on port 3001.")
      | .bodyError m => (st2, .err ("Request error: " ++ m.getD "MCP tool call failed"))
      | .malformed =>
          (st2, .err "Request error: Invalid SSE response format from MCP server")
      | .result r => (st2, .ok r)

end Gateway

/-! ## Theorems -/

/-- A provider whose handshake always succeeds (issuing a session id)
but which rejects every tools/call request with HTTP 400 — the
always-expired-session stand-in. -/
def always400Provider : Gateway.MCPProvider :=
  { init := fun _ => .ok (some "session-1") true,
    call := fun _ => .status400 }

/-- C1: the claim that the 400-retry happens exactly once and a second
same-kind failure is surfaced as a fatal error fails on the code: the
retry recursion in `callMCPTool` carries no counter, so against a
provider that always answers tools/call with HTTP 400 the call never
completes — for every finite recursion budget the fueled embedding
exhausts its fuel instead of reaching any terminating branch. -/
theorem callMCPTool_always400_never_terminates :
    ∀ (fuel : Nat) (st : Gateway.GatewayState),
      (Gateway.callMCPTool always400Provider "get_weather" fuel st).2 =
        Gateway.CallOutcome.diverge := by
  intro fuel
  induction fuel with
  | zero => intro st; rfl
  | succ n ih =>
    intro st
    simp only [Gateway.callMCPTool, Gateway.initializeMCPSession, always400Provider]
    by_cases h : st.mcpSessionId.isSome
    · simp only [h, if_true]
      exact ih _
    · simp only [h, if_false, Bool.false_eq_true]
      exact ih _

/-- Unfolding equation for one retry round of `callMCPTool`, phrased
against a known outcome of `initializeMCPSession`. -/
theorem callMCPTool_succ (p : Gateway.MCPProvider) (toolName : String) (fuel : Nat)
    (st st1 : Gateway.GatewayState) (b : Bool)
    (h : Gateway.initializeMCPSession p st = (st1, b)) :
    Gateway.callMCPTool p toolName (fuel + 1) st =
      if b then
        match p.call st1.callCount with
        | .status400 =>
            Gateway.callMCPTool p toolName fuel
              { st1 with mcpSessionId := none, callCount := st1.callCount + 1,
                         dispatches := st1.dispatches ++ [st1.mcpSessionId] }
        | .httpError m =>
            ({ st1 with callCount := st1.callCount + 1,
                        dispatches := st1.dispatches ++ [st1.mcpSessionId] },
             .err (m.getD "MCP server error"))
        | .noResponse =>
            ({ st1 with callCount := st1.callCount + 1,
                        dispatches := st1.dispatches ++ [st1.mcpSessionId] },
             .err "MCP server is not responding. Make sure it\x27s running on port 3001.")
        | .bodyError m =>
            ({ st1 with callCount := st1.callCount + 1,
                        dispatches := st1.dispatches ++ [st1.mcpSessionId] },
             .err ("Request error: " ++ m.getD "MCP tool call failed"))
        | .malformed =>
            ({ st1 with callCount := st1.callCount + 1,
                        dispatches := st1.dispatches ++ [st1.mcpSessionId] },
             .err "Request error: Invalid SSE response format from MCP server")
        | .result r =>
            ({ st1 with callCount := st1.callCount + 1,
                        dispatches := st1.dispatches ++ [st1.mcpSessionId] },
             .ok r)
      else (st1, .err "Request error: Failed to connect to MCP server") := by
  cases b <;> simp only [Gateway.callMCPTool, h] <;> rfl

/-- `initializeMCPSession` never touches the dispatch trace. -/
theorem initializeMCPSession_dispatches (p : Gateway.MCPProvider)
    (st : Gateway.GatewayState) :
    ((Gateway.initializeMCPSession p st).1).dispatches = st.dispatches := by
  unfold Gateway.initializeMCPSession
  by_cases hs : st.mcpSessionId.isSome
  · simp [hs]
  · simp only [hs, if_false, Bool.false_eq_true]
    cases p.init st.initCount <;> rfl

/-- When the provider's successful handshakes always issue a session
id, a successful `initializeMCPSession` leaves a stored session id
behind. -/
theorem initializeMCPSession_ok (p : Gateway.MCPProvider)
    (hp : ∀ n sid, p.init n = .ok sid true → sid.isSome = true)
    (st st1 : Gateway.GatewayState)
    (h : Gateway.initializeMCPSession p st = (st1, true)) :
    st1.mcpSessionId.isSome = true ∧ st1.dispatches = st.dispatches := by
  unfold Gateway.initializeMCPSession at h
  by_cases hs : st.mcpSessionId.isSome
  · simp only [hs, if_true] at h
    cases h
    exact ⟨hs, rfl⟩
  · simp only [hs, if_false, Bool.false_eq_true] at h
    cases hinit : p.init st.initCount with
    | netFail =>
      rw [hinit] at h
      exact absurd (congrArg Prod.snd h) (by simp)
    | ok sid hasResult =>
      rw [hinit] at h
      have hres : hasResult = true := congrArg Prod.snd h
      subst hres
      have hst : st1 = { st with mcpSessionId := sid, initCount := st.initCount + 1 } :=
        (congrArg Prod.fst h).symm
      subst hst
      exact ⟨hp _ _ hinit, rfl⟩

/-- C7: in every reachable gateway state, a tools/call request is only
ever dispatched with the currently stored session id attached as the
`mcp-session-id` header; under the handshake interface of the spec
(a successful initialization always issues a session id), every
dispatched tools/call request in the trace carries a session id. -/
theorem callMCPTool_always_dispatches_session_id (p : Gateway.MCPProvider)
    (hp : ∀ n sid, p.init n = .ok sid true → sid.isSome = true)
    (toolName : String) :
    ∀ (fuel : Nat) (st : Gateway.GatewayState),
      st.dispatches.all Option.isSome = true →
      ((Gateway.callMCPTool p toolName fuel st).1).dispatches.all Option.isSome = true := by
  intro fuel
  induction fuel with
  | zero => intro st h; exact h
  | succ n ih =>
    intro st h
    cases hinit : Gateway.initializeMCPSession p st with
    | mk st1 ok =>
      rw [callMCPTool_succ p toolName n st st1 ok hinit]
      cases ok with
      | false =>
        have hd : st1.dispatches = st.dispatches := by
          have := initializeMCPSession_dispatches p st
          rw [hinit] at this
          exact this
        simpa [hd] using h
      | true =>
        obtain ⟨hsid, hdisp⟩ := initializeMCPSession_ok p hp st st1 hinit
        have hall : (st1.dispatches ++ [st1.mcpSessionId]).all Option.isSome = true := by
          rw [List.all_append, hdisp, h, Bool.true_and]
          simp [hsid]
        simp only [if_true]
        generalize p.call st1.callCount = c
        cases c with
        | status400 =>
          exact ih { st1 with mcpSessionId := none, callCount := st1.callCount + 1,
                              dispatches := st1.dispatches ++ [st1.mcpSessionId] } hall
        | httpError m => exact hall
        | noResponse => exact hall
        | bodyError m => exact hall
        | malformed => exact hall
        | result r => exact hall

/-- A provider whose handshake issues a session id and whose tool calls
succeed. -/
def okProvider : Gateway.MCPProvider :=
  { init := fun _ => .ok (some "session-1") true,
    call := fun _ => .result "ok" }

/-- Witness for the session-header invariant at a concrete provider,
fuel and initial state. -/
theorem callMCPTool_always_dispatches_session_id_witness :
    ((Gateway.callMCPTool okProvider "get_weather" 2 {}).1).dispatches.all
      Option.isSome = true :=
  callMCPTool_always_dispatches_session_id okProvider
    (by
      intro n sid hx
      injection hx with h3 _
      rw [← h3]
      simp)
    "get_weather" 2 {} (by rfl)

/-- C2: the dispatcher boundary of `callTool` never lets a handler
failure escape: for every environment (including ones whose weather or
completion oracles fail arbitrarily), every state and every
`(name, arguments)` pair, the returned envelope is either the handler's
own result or, when the invoked handler threw, the error-shaped
envelope whose single content block carries the failure reason. -/
theorem callTool_never_raises (env : Env) (st : WSState) (now : Nat)
    (toolName : String) (args : Args) :
    (WeatherMCPServer.callTool env st now toolName args).1 =
      (WeatherMCPServer.callToolBody env st now toolName args).1 ∧
    ((∃ r, (WeatherMCPServer.callToolBody env st now toolName args).2 = Except.ok r ∧
        (WeatherMCPServer.callTool env st now toolName args).2 = r) ∨
     (∃ e, (WeatherMCPServer.callToolBody env st now toolName args).2 = Except.error e ∧
        (WeatherMCPServer.callTool env st now toolName args).2 =
          WeatherMCPServer.errorEnvelope toolName e ∧
        (WeatherMCPServer.callTool env st now toolName args).2.isError = true ∧
        (WeatherMCPServer.callTool env st now toolName args).2.content =
          [⟨"text", "Error calling tool " ++ toolName ++ ": " ++ e⟩])) := by
  unfold WeatherMCPServer.callTool
  rcases hb : WeatherMCPServer.callToolBody env st now toolName args with ⟨st1, r⟩
  cases r with
  | ok result => exact ⟨rfl, Or.inl ⟨result, rfl, rfl⟩⟩
  | error e => exact ⟨rfl, Or.inr ⟨e, rfl, rfl, rfl, rfl⟩⟩

/-- C4: calling a name outside the registered switch yields the
error-shaped envelope whose text states the unknown tool name; the
dispatcher neither ignores the name silently nor throws past the
boundary. -/
theorem callTool_unknown_tool (env : Env) (st : WSState) (now : Nat)
    (toolName : String) (args : Args)
    (h : toolName ∉ WeatherMCPServer.registeredToolNames) :
    WeatherMCPServer.callTool env st now toolName args =
      (st, { content := [⟨"text",
               "Error calling tool " ++ toolName ++ ": " ++ ("Unknown tool: " ++ toolName)⟩],
             isError := true }) ∧
    (WeatherMCPServer.callTool env st now toolName args).2.isError = true := by
  simp only [WeatherMCPServer.registeredToolNames, List.mem_cons, List.not_mem_nil,
    or_false, not_or] at h
  obtain ⟨h1, h2, h3, h4, h5⟩ := h
  unfold WeatherMCPServer.callTool WeatherMCPServer.callToolBody
  simp only [h1, h2, h3, h4, h5, if_false]
  exact ⟨rfl, rfl⟩

/-- An environment whose oracles all fail and with no Claude service:
the trivial stand-in used by the closed witnesses. -/
def failingEnv : Env :=
  { geo := fun _ _ _ => .error "network failure",
    fc := fun _ _ _ _ => .error "network failure",
    claude := none }

/-- Witness for the unknown-tool behavior at the name the spec tests. -/
theorem callTool_unknown_tool_witness :
    ("nonexistent_tool_xyz" ∉ WeatherMCPServer.registeredToolNames) ∧
    (WeatherMCPServer.callTool failingEnv {} 0 "nonexistent_tool_xyz" {} =
      ({}, { content := [⟨"text",
               "Error calling tool nonexistent_tool_xyz: Unknown tool: nonexistent_tool_xyz"⟩],
             isError := true }) ∧
     (WeatherMCPServer.callTool failingEnv {} 0 "nonexistent_tool_xyz" {}).2.isError = true) :=
  ⟨by decide, callTool_unknown_tool failingEnv {} 0 "nonexistent_tool_xyz" {} (by decide)⟩

/-- A tool call whose handler returned normally passes the handler's
envelope through unchanged. -/
theorem callTool_of_body_ok (env : Env) (st : WSState) (now : Nat)
    (toolName : String) (args : Args) (st1 : WSState) (r : ToolResult)
    (h : WeatherMCPServer.callToolBody env st now toolName args = (st1, .ok r)) :
    WeatherMCPServer.callTool env st now toolName args = (st1, r) := by
  unfold WeatherMCPServer.callTool
  rw [h]

/-- A tool call whose handler threw returns the error envelope. -/
theorem callTool_of_body_error (env : Env) (st : WSState) (now : Nat)
    (toolName : String) (args : Args) (st1 : WSState) (e : String)
    (h : WeatherMCPServer.callToolBody env st now toolName args = (st1, .error e)) :
    WeatherMCPServer.callTool env st now toolName args =
      (st1, WeatherMCPServer.errorEnvelope toolName e) := by
  unfold WeatherMCPServer.callTool
  rw [h]

/-- The dispatcher switch routes `ask_weather_question` to its
handler. -/
theorem callToolBody_ask (env : Env) (st : WSState) (now : Nat)
    (q c : Option String) :
    WeatherMCPServer.callToolBody env st now "ask_weather_question"
        { question := q, city := c } =
      WeatherMCPServer.handleWeatherQuestion env st now q c := rfl

/-- With a configured Claude service, `handleWeatherQuestion` always
returns a success envelope (its internal catch makes the answer total),
so `isError` is false. -/
theorem handleWeatherQuestion_some_isError (env : Env) (o : ClaudeOracle)
    (h : env.claude = some o) (st : WSState) (now : Nat) (q c : Option String) :
    ∃ st1 r, WeatherMCPServer.handleWeatherQuestion env st now q c = (st1, .ok r) ∧
      r.isError = false := by
  unfold WeatherMCPServer.handleWeatherQuestion
  rw [h]
  exact ⟨_, _, rfl, rfl⟩

/-- C10: with no Claude service configured, `ask_weather_question`
returns the fixed apology block without the `isError` flag — a
success-shaped result that a caller inspecting only `isError` cannot
distinguish from an answered question (whose envelope also carries
`isError` false). -/
theorem askWeatherQuestion_unavailable_success_shaped (env : Env) (st : WSState)
    (now : Nat) (q c : Option String) (h : env.claude = none) :
    WeatherMCPServer.callTool env st now "ask_weather_question"
        { question := q, city := c } =
      (st, { content := [⟨"text", WeatherMCPServer.aiUnavailableText⟩],
             aiAnalyzed := some false }) ∧
    (WeatherMCPServer.callTool env st now "ask_weather_question"
        { question := q, city := c }).2.isError = false ∧
    (∀ (env2 : Env) (o : ClaudeOracle), env2.claude = some o →
      (WeatherMCPServer.callTool env2 st now "ask_weather_question"
          { question := q, city := c }).2.isError = false) := by
  have hb : WeatherMCPServer.callToolBody env st now "ask_weather_question"
      { question := q, city := c } =
        (st, .ok { content := [⟨"text", WeatherMCPServer.aiUnavailableText⟩],
                   aiAnalyzed := some false }) := by
    rw [callToolBody_ask]
    unfold WeatherMCPServer.handleWeatherQuestion
    rw [h]
  have hcall := callTool_of_body_ok env st now "ask_weather_question"
    { question := q, city := c } st _ hb
  refine ⟨hcall, by rw [hcall], ?_⟩
  intro env2 o h2
  obtain ⟨st1, r, hr, hfalse⟩ :=
    handleWeatherQuestion_some_isError env2 o h2 st now q c
  have hb2 : WeatherMCPServer.callToolBody env2 st now "ask_weather_question"
      { question := q, city := c } = (st1, .ok r) := by
    rw [callToolBody_ask]; exact hr
  rw [callTool_of_body_ok env2 st now "ask_weather_question"
    { question := q, city := c } st1 r hb2]
  exact hfalse

/-- Witness for the apology behavior with a concrete question and an
environment whose Claude service is absent. -/
theorem askWeatherQuestion_unavailable_witness :
    failingEnv.claude = none ∧
    (WeatherMCPServer.callTool failingEnv {} 0 "ask_weather_question"
        { question := some "Is it raining?" } =
      ({}, { content := [⟨"text", WeatherMCPServer.aiUnavailableText⟩],
             aiAnalyzed := some false }) ∧
     (WeatherMCPServer.callTool failingEnv {} 0 "ask_weather_question"
        { question := some "Is it raining?" }).2.isError = false ∧
     (∀ (env2 : Env) (o : ClaudeOracle), env2.claude = some o →
      (WeatherMCPServer.callTool env2 {} 0 "ask_weather_question"
          { question := some "Is it raining?" }).2.isError = false)) :=
  ⟨rfl, askWeatherQuestion_unavailable_success_shaped failingEnv {} 0
    (some "Is it raining?") none rfl⟩

/-- A successful handler outcome always carries at least one content
block. -/
def okContentNonempty (x : WSState × Except String ToolResult) : Prop :=
  ∀ r, x.2 = .ok r → r.content ≠ []

theorem handleGetWeather_good (env : Env) (st : WSState) (now : Nat)
    (city : Option String) :
    okContentNonempty (WeatherMCPServer.handleGetWeather env st now city) := by
  unfold okContentNonempty WeatherMCPServer.handleGetWeather
  intro r h
  split at h
  · exact Except.noConfusion h
  · injection h with h
    subst h
    simp

theorem handleGetForecast_good (env : Env) (st : WSState) (now : Nat)
    (city : Option String) (days : Option Int) :
    okContentNonempty (WeatherMCPServer.handleGetForecast env st now city days) := by
  unfold okContentNonempty WeatherMCPServer.handleGetForecast
  intro r h
  split at h
  · exact Except.noConfusion h
  · injection h with h
    subst h
    simp

theorem handleGetWeatherByCoords_good (env : Env) (st : WSState) (now : Nat)
    (latitude longitude : Option Int) (days : Option Int) :
    okContentNonempty
      (WeatherMCPServer.handleGetWeatherByCoords env st now latitude longitude days) := by
  unfold okContentNonempty WeatherMCPServer.handleGetWeatherByCoords
  intro r h
  dsimp only at h
  repeat' split at h
  all_goals
    first
    | exact Except.noConfusion h
    | (injection h with h; subst h; simp)

theorem handleGeocodeCity_good (env : Env) (st : WSState) (now : Nat)
    (city : Option String) (count : Option Nat) :
    okContentNonempty (WeatherMCPServer.handleGeocodeCity env st now city count) := by
  unfold okContentNonempty WeatherMCPServer.handleGeocodeCity
  intro r h
  dsimp only at h
  repeat' split at h
  all_goals
    first
    | exact Except.noConfusion h
    | (injection h with h; subst h; simp)

theorem handleWeatherQuestion_good (env : Env) (st : WSState) (now : Nat)
    (question city : Option String) :
    okContentNonempty (WeatherMCPServer.handleWeatherQuestion env st now question city) := by
  unfold okContentNonempty WeatherMCPServer.handleWeatherQuestion
  intro r h
  split at h
  · injection h with h
    subst h
    simp
  · injection h with h
    subst h
    simp

/-- C9: every envelope `callTool` returns — success paths, handler
failures, and the unknown-tool path alike — carries a non-empty
`content` sequence, so callers can render something without branching
on the error flag first. -/
theorem callTool_content_always_present (env : Env) (st : WSState) (now : Nat)
    (toolName : String) (args : Args) :
    (WeatherMCPServer.callTool env st now toolName args).2.content ≠ [] := by
  unfold WeatherMCPServer.callTool
  rcases hb : WeatherMCPServer.callToolBody env st now toolName args with ⟨st1, o⟩
  cases o with
  | error e => simp [WeatherMCPServer.errorEnvelope]
  | ok r =>
    simp only []
    have : r.content ≠ [] := by
      unfold WeatherMCPServer.callToolBody at hb
      repeat' split at hb
      · exact handleGetWeather_good env st now args.city r (congrArg Prod.snd hb)
      · exact handleGetForecast_good env st now args.city args.days r
          (congrArg Prod.snd hb)
      · exact handleGetWeatherByCoords_good env st now args.latitude args.longitude
          args.days r (congrArg Prod.snd hb)
      · exact handleGeocodeCity_good env st now args.city args.count r
          (congrArg Prod.snd hb)
      · exact handleWeatherQuestion_good env st now args.question args.city r
          (congrArg Prod.snd hb)
      · exact Except.noConfusion (congrArg Prod.snd hb)
    exact this

/-- `Map.set` followed by `Map.get` on the same key yields the new
entry. -/
theorem cacheLookup_set_self (key : String) (e : CacheEntry)
    (c : List (String × CacheEntry)) :
    cacheLookup key (cacheSet key e c) = some e := by
  simp [cacheLookup, cacheSet, List.lookup]

/-- C5: the response cache returns a stored value exactly when the key
is present and strictly younger than its TTL; consequently, after a
miss-and-fetch of a geocoding key, an identical call within the
geocoding TTL window is served memoized (no provider contact) while a
call at or past the TTL re-invokes the provider; and the geocoding TTL
is an integer multiple of — strictly longer than — the weather TTL. -/
theorem responseCache_ttl_semantics (env : Env) (st : WSState) (now : Nat)
    (city : Option String) (count : Nat) (l : List Location)
    (hmiss : cacheLookup (geocodeKey city count) st.cache = none)
    (hok : env.geo st.geoCalls city count = .ok l) :
    (geocodeCity env st now city count).2 = .ok l ∧
    ((geocodeCity env st now city count).1).geoCalls = st.geoCalls + 1 ∧
    (∀ now2, now2 - now < geocodeCacheTimeout →
      geocodeCity env (geocodeCity env st now city count).1 now2 city count =
        ((geocodeCity env st now city count).1, .ok l)) ∧
    (∀ now2, geocodeCacheTimeout ≤ now2 - now →
      ((geocodeCity env (geocodeCity env st now city count).1 now2 city count).1).geoCalls
        = ((geocodeCity env st now city count).1).geoCalls + 1) ∧
    (∀ (c2 : List (String × CacheEntry)) (t : Nat) (k : String) (ttl : Nat) (v : CVal),
      cacheGet c2 t k ttl = some v ↔
        ∃ e, cacheLookup k c2 = some e ∧ e.data = v ∧ t - e.timestamp < ttl) ∧
    (∃ k, geocodeCacheTimeout = k * cacheTimeout ∧ cacheTimeout < geocodeCacheTimeout) := by
  have hget : cacheGet st.cache now (geocodeKey city count) geocodeCacheTimeout = none := by
    unfold cacheGet
    rw [hmiss]
  have heval : geocodeCity env st now city count =
      ({ st with cache := cacheSet (geocodeKey city count) ⟨.geo l, now⟩ st.cache,
                 geoCalls := st.geoCalls + 1 }, .ok l) := by
    unfold geocodeCity
    dsimp only
    rw [hget, hok]
  refine ⟨by rw [heval], by rw [heval], ?_, ?_, ?_, ?_⟩
  · intro now2 h2
    rw [heval]
    have hget2 : cacheGet
        (cacheSet (geocodeKey city count) ⟨.geo l, now⟩ st.cache) now2
        (geocodeKey city count) geocodeCacheTimeout = some (.geo l) := by
      unfold cacheGet
      rw [cacheLookup_set_self]
      simp [h2]
    unfold geocodeCity
    dsimp only
    rw [hget2]
  · intro now2 h2
    rw [heval]
    have hget2 : cacheGet
        (cacheSet (geocodeKey city count) ⟨.geo l, now⟩ st.cache) now2
        (geocodeKey city count) geocodeCacheTimeout = none := by
      unfold cacheGet
      rw [cacheLookup_set_self]
      simp [Nat.not_lt.mpr h2]
    unfold geocodeCity
    dsimp only
    rw [hget2]
    generalize env.geo (st.geoCalls + 1) city count = res
    cases res <;> rfl
  · intro c2 t k ttl v
    unfold cacheGet
    generalize cacheLookup k c2 = lk
    cases lk with
    | none => simp
    | some e =>
      dsimp only
      by_cases hf : t - e.timestamp < ttl
      · rw [if_pos hf]
        constructor
        · intro h
          injection h with h
          exact ⟨e, rfl, h, hf⟩
        · rintro ⟨e2, he2, hd, _⟩
          injection he2 with he2
          subst he2
          rw [hd]
      · rw [if_neg hf]
        constructor
        · intro h
          exact Option.noConfusion h
        · rintro ⟨e2, he2, hd, hlt⟩
          injection he2 with he2
          subst he2
          exact absurd hlt hf
  · exact ⟨6, by decide, by decide⟩

/-- A location record for the concrete cache witness. -/
def parisLocation : Location :=
  { name := "Paris", country := some "France", latitude := 48, longitude := 2,
    timezone := some "Europe/Paris" }

/-- A fixed structured weather reading for the concrete witnesses. -/
def parisWeather : WeatherData :=
  { current := { temperature := 21 }, daily := [{ date := "2024-01-01" }] }

/-- A weather environment whose geocoder always finds Paris and whose
forecast endpoint returns a fixed reading. -/
def parisEnv : Env :=
  { geo := fun _ _ _ => .ok [parisLocation],
    fc := fun _ _ _ _ => .ok parisWeather,
    claude := none }

/-- Witness for the cache TTL semantics at a concrete environment. -/
theorem responseCache_ttl_semantics_witness :
    (cacheLookup (geocodeKey (some "Paris") 1) (WSState.cache {}) = none ∧
     parisEnv.geo (WSState.geoCalls {}) (some "Paris") 1 = .ok [parisLocation]) ∧
    ((geocodeCity parisEnv {} 0 (some "Paris") 1).2 = .ok [parisLocation] ∧
     ((geocodeCity parisEnv {} 0 (some "Paris") 1).1).geoCalls = WSState.geoCalls {} + 1 ∧
     (∀ now2, now2 - 0 < geocodeCacheTimeout →
       geocodeCity parisEnv (geocodeCity parisEnv {} 0 (some "Paris") 1).1 now2
           (some "Paris") 1 =
         ((geocodeCity parisEnv {} 0 (some "Paris") 1).1, .ok [parisLocation])) ∧
     (∀ now2, geocodeCacheTimeout ≤ now2 - 0 →
       ((geocodeCity parisEnv (geocodeCity parisEnv {} 0 (some "Paris") 1).1 now2
           (some "Paris") 1).1).geoCalls =
         ((geocodeCity parisEnv {} 0 (some "Paris") 1).1).geoCalls + 1) ∧
     (∀ (c2 : List (String × CacheEntry)) (t : Nat) (k : String) (ttl : Nat) (v : CVal),
       cacheGet c2 t k ttl = some v ↔
         ∃ e, cacheLookup k c2 = some e ∧ e.data = v ∧ t - e.timestamp < ttl) ∧
     (∃ k, geocodeCacheTimeout = k * cacheTimeout ∧
        cacheTimeout < geocodeCacheTimeout)) :=
  ⟨⟨rfl, rfl⟩, responseCache_ttl_semantics parisEnv {} 0 (some "Paris") 1
    [parisLocation] rfl rfl⟩

/-- An environment whose geocoder finds nothing (returns an empty
result list for every query, the undefined city included). -/
def geoEmptyEnv : Env :=
  { geo := fun _ _ _ => .ok [],
    fc := fun _ _ _ _ => .error "unreachable",
    claude := none }

/-- C3 counterexample: calling `get_weather` with an empty argument
mapping DOES contact the Weather Data Source — the dispatcher performs
no argument validation, forwards the undefined city to `geocodeCity`,
and the geocoding HTTP request is issued (contact counter 1, not 0)
before the error-shaped envelope is produced. -/
theorem getWeather_missing_city_contacts_provider :
    ((WeatherMCPServer.callTool geoEmptyEnv {} 0 "get_weather" {}).1).geoCalls = 1 ∧
    ¬ (((WeatherMCPServer.callTool geoEmptyEnv {} 0 "get_weather" {}).1).geoCalls = 0) ∧
    ((WeatherMCPServer.callTool geoEmptyEnv {} 0 "get_weather" {}).2).isError = true := by
  refine ⟨rfl, by decide, rfl⟩

/-- The dispatcher switch routes `get_weather` to its handler. -/
theorem callToolBody_getWeather (env : Env) (st : WSState) (now : Nat) (args : Args) :
    WeatherMCPServer.callToolBody env st now "get_weather" args =
      WeatherMCPServer.handleGetWeather env st now args.city := rfl

/-- C3 as amended: `call("get_weather", {})` (missing required `city`)
returns an error-shaped envelope, but only after the Weather Data
Source has been contacted once with the undefined city — no validation
short-circuits the call — and the error text reports the geocoding
outcome for "undefined" rather than naming the missing parameter. -/
theorem getWeather_missing_city_behavior (env : Env) (st : WSState) (now : Nat)
    (hmiss : cacheLookup (geocodeKey none 1) st.cache = none)
    (hfail : env.geo st.geoCalls none 1 = .ok [] ∨
      ∃ e, env.geo st.geoCalls none 1 = .error e) :
    ((WeatherMCPServer.callTool env st now "get_weather" {}).1).geoCalls =
      st.geoCalls + 1 ∧
    ((WeatherMCPServer.callTool env st now "get_weather" {}).2).isError = true ∧
    ((WeatherMCPServer.callTool env st now "get_weather" {}).2).content ≠ [] := by
  have hget : cacheGet st.cache now (geocodeKey none 1) geocodeCacheTimeout = none := by
    unfold cacheGet
    rw [hmiss]
  have hbody : ∃ st1 msg,
      WeatherMCPServer.callToolBody env st now "get_weather" {} = (st1, .error msg) ∧
      st1.geoCalls = st.geoCalls + 1 := by
    rw [callToolBody_getWeather]
    rcases hfail with hok | ⟨e, herr⟩
    · have heq : WeatherMCPServer.handleGetWeather env st now none =
          ({ st with cache := cacheSet (geocodeKey none 1) ⟨.geo [], now⟩ st.cache,
                     geoCalls := st.geoCalls + 1 },
           .error ("Could not find location for \"undefined\". Please check the city name and try again.")) := by
        unfold WeatherMCPServer.handleGetWeather getWeatherForChat geocodeCity
        dsimp only
        rw [hget, hok]
        rfl
      exact ⟨_, _, heq, rfl⟩
    · have heq : WeatherMCPServer.handleGetWeather env st now none =
          ({ st with geoCalls := st.geoCalls + 1 },
           .error ("Failed to geocode undefined: " ++ e)) := by
        unfold WeatherMCPServer.handleGetWeather getWeatherForChat geocodeCity
        dsimp only
        rw [hget, herr]
        rfl
      exact ⟨_, _, heq, rfl⟩
  obtain ⟨st1, msg, hb, hcalls⟩ := hbody
  rw [callTool_of_body_error env st now "get_weather" {} st1 msg hb]
  exact ⟨hcalls, rfl, by simp [WeatherMCPServer.errorEnvelope]⟩

/-- Witness for the amended missing-city behavior at a concrete
environment. -/
theorem getWeather_missing_city_behavior_witness :
    (cacheLookup (geocodeKey none 1) (WSState.cache {}) = none ∧
     geoEmptyEnv.geo (WSState.geoCalls {}) none 1 = .ok []) ∧
    (((WeatherMCPServer.callTool geoEmptyEnv {} 0 "get_weather" {}).1).geoCalls =
       WSState.geoCalls {} + 1 ∧
     ((WeatherMCPServer.callTool geoEmptyEnv {} 0 "get_weather" {}).2).isError = true ∧
     ((WeatherMCPServer.callTool geoEmptyEnv {} 0 "get_weather" {}).2).content ≠ []) :=
  ⟨⟨rfl, rfl⟩,
   getWeather_missing_city_behavior geoEmptyEnv {} 0 rfl (Or.inl rfl)⟩

theorem data_append (s t : String) : (s ++ t).data = s.data ++ t.data := by
  cases s
  cases t
  rfl

/-- The two cache-key families are disjoint: a geocode key never equals
a forecast key (their prefixes differ at the first character). -/
theorem geocodeKey_ne_forecastKey (city : Option String) (count : Nat)
    (la lo : Option Int) (days : Int) :
    geocodeKey city count ≠ forecastKey la lo days := by
  unfold geocodeKey forecastKey
  intro h
  have h2 := congrArg String.data h
  simp only [data_append, List.cons_append, List.nil_append] at h2
  injection h2 with hc _
  exact absurd hc (by decide)

theorem lookup_filter_ne (k k2 : String) (h : k ≠ k2) :
    ∀ (c : List (String × CacheEntry)),
      List.lookup k (c.filter (fun p => p.1 ≠ k2)) = List.lookup k c := by
  intro c
  induction c with
  | nil => rfl
  | cons p rest ih =>
    by_cases hp : p.1 = k2
    · have hd : (decide (p.1 ≠ k2)) = false := by simp [hp]
      have hk : (k == p.1) = false := by
        rw [hp]
        exact beq_false_of_ne h
      rw [List.filter_cons, hd]
      simp only [if_false, Bool.false_eq_true]
      rw [ih, List.lookup, hk]
    · have hd : (decide (p.1 ≠ k2)) = true := by simp [hp]
      rw [List.filter_cons, hd]
      simp only [if_true]
      rw [List.lookup, List.lookup]
      cases hk : k == p.1
      · exact ih
      · rfl

/-- `Map.set` on a different key leaves a lookup unchanged. -/
theorem cacheLookup_set_ne (k k2 : String) (e : CacheEntry)
    (c : List (String × CacheEntry)) (h : k ≠ k2) :
    cacheLookup k (cacheSet k2 e c) = cacheLookup k c := by
  unfold cacheLookup cacheSet
  rw [List.lookup, beq_false_of_ne h]
  exact lookup_filter_ne k k2 h c

/-- With the location attached, the current-weather formatter succeeds
and renders a non-empty template. -/
theorem formatCurrentWeatherForChat_ok (wd : WeatherData) (loc : Location)
    (h : wd.location = some loc) :
    ∃ cs, formatCurrentWeatherForChat wd = .ok cs ∧ cs.weatherData = wd ∧
      cs.ty = "current" ∧ cs.response ≠ "" := by
  unfold formatCurrentWeatherForChat
  rw [h]
  refine ⟨_, rfl, rfl, rfl, ?_⟩
  dsimp only
  repeat' apply append_ne_empty_left
  decide

/-- The deterministic current-weather fallback of the Claude service is
never empty. -/
theorem fallbackCurrentWeatherResponse_ne_empty (wd : WeatherData) (city : String) :
    ClaudeService.fallbackCurrentWeatherResponse wd city ≠ "" := by
  unfold ClaudeService.fallbackCurrentWeatherResponse
  dsimp only
  repeat' apply append_ne_empty_left
  decide

/-- A successful two-phase fetch: city resolution, coordinate forecast,
location attachment and template formatting, with both cache keys
initially cold. -/
theorem getWeatherForChat_success (env : Env) (st : WSState) (now : Nat)
    (city : String) (loc : Location) (wd : WeatherData)
    (hmiss1 : cacheLookup (geocodeKey (some city) 1) st.cache = none)
    (hgeo : env.geo st.geoCalls (some city) 1 = .ok [loc])
    (hmiss2 : cacheLookup (forecastKey (some loc.latitude) (some loc.longitude) 1)
      st.cache = none)
    (hfc : env.fc st.fcCalls (some loc.latitude) (some loc.longitude) 1 = .ok wd) :
    ∃ st2 cs, getWeatherForChat env st now (some city) false = (st2, .success cs) ∧
      formatCurrentWeatherForChat { wd with location := some loc } = .ok cs := by
  have hget1 : cacheGet st.cache now (geocodeKey (some city) 1) geocodeCacheTimeout
      = none := by
    unfold cacheGet
    rw [hmiss1]
  have hgc : geocodeCity env st now (some city) 1 =
      ({ st with cache := cacheSet (geocodeKey (some city) 1) ⟨.geo [loc], now⟩ st.cache,
                 geoCalls := st.geoCalls + 1 }, .ok [loc]) := by
    unfold geocodeCity
    dsimp only
    rw [hget1, hgeo]
  have hmiss2b : cacheLookup (forecastKey (some loc.latitude) (some loc.longitude) 1)
      (cacheSet (geocodeKey (some city) 1) ⟨.geo [loc], now⟩ st.cache) = none := by
    rw [cacheLookup_set_ne _ _ _ _
      (fun hx => geocodeKey_ne_forecastKey (some city) 1
        (some loc.latitude) (some loc.longitude) 1 hx.symm)]
    exact hmiss2
  have hget2 : cacheGet
      (cacheSet (geocodeKey (some city) 1) ⟨.geo [loc], now⟩ st.cache) now
      (forecastKey (some loc.latitude) (some loc.longitude) 1) cacheTimeout = none := by
    unfold cacheGet
    rw [hmiss2b]
  obtain ⟨cs, hcs, hwdat, hty, hne⟩ :=
    formatCurrentWeatherForChat_ok { wd with location := some loc } loc rfl
  have hfinal : getWeatherForChat env st now (some city) false =
      ({ st with
          cache := cacheSet (forecastKey (some loc.latitude) (some loc.longitude) 1)
            ⟨.fc wd, now⟩
            (cacheSet (geocodeKey (some city) 1) ⟨.geo [loc], now⟩ st.cache),
          geoCalls := st.geoCalls + 1, fcCalls := st.fcCalls + 1 }, .success cs) := by
    unfold getWeatherForChat
    rw [hgc]
    dsimp only
    unfold getWeatherForecast
    dsimp only
    rw [show (if false = true then (7 : Int) else 1) = 1 from rfl]
    rw [hget2, hfc]
    dsimp only
    simp only [Bool.false_eq_true, if_false]
    rw [hcs]
  exact ⟨_, cs, hfinal, hcs⟩

/-- C8: when the Text-Completion Service is unavailable (no Claude
service) or every completion attempt fails, a `get_weather` call whose
weather fetch succeeds still returns `isError` false with a single
non-empty text block rendered by a deterministic template — either the
weather-service chat template or the Claude-service fallback template —
so the fallback never fails the overall tool call. -/
theorem weather_template_fallback (env : Env) (st : WSState) (now : Nat)
    (city : String) (loc : Location) (wd : WeatherData)
    (hclaude : env.claude = none ∨
      ∃ o, env.claude = some o ∧ ∀ p, ∃ e, o.complete p = Except.error e)
    (hmiss1 : cacheLookup (geocodeKey (some city) 1) st.cache = none)
    (hgeo : env.geo st.geoCalls (some city) 1 = .ok [loc])
    (hmiss2 : cacheLookup (forecastKey (some loc.latitude) (some loc.longitude) 1)
      st.cache = none)
    (hfc : env.fc st.fcCalls (some loc.latitude) (some loc.longitude) 1 = .ok wd) :
    ((WeatherMCPServer.callTool env st now "get_weather"
        { city := some city }).2).isError = false ∧
    ∃ t, ((WeatherMCPServer.callTool env st now "get_weather"
        { city := some city }).2).content = [⟨"text", t⟩] ∧ t ≠ "" ∧
      ((∃ cs, formatCurrentWeatherForChat { wd with location := some loc } = .ok cs ∧
          t = cs.response) ∨
       t = ClaudeService.fallbackCurrentWeatherResponse
             { wd with location := some loc } city) := by
  obtain ⟨st2, cs, hchat, hcs⟩ :=
    getWeatherForChat_success env st now city loc wd hmiss1 hgeo hmiss2 hfc
  have hbody : WeatherMCPServer.callToolBody env st now "get_weather"
      { city := some city } =
      (st2, .ok (ToolResult.mk
        [⟨"text",
          (match env.claude with
           | some o => ClaudeService.analyzeCurrentWeather o cs.weatherData
               (jsStr (some city))
           | none => cs.response)⟩]
        false (some cs.weatherData) (some cs.ty) (some env.claude.isSome)
        none none)) := by
    rw [callToolBody_getWeather]
    unfold WeatherMCPServer.handleGetWeather
    rw [hchat]
  have hcall := callTool_of_body_ok env st now "get_weather"
    { city := some city } st2 _ hbody
  rw [hcall]
  obtain ⟨cs2, hcs2, hwdat2, hty2, hne2⟩ :=
    formatCurrentWeatherForChat_ok { wd with location := some loc } loc rfl
  have hcseq : cs2 = cs := by
    rw [hcs] at hcs2
    injection hcs2 with h
    exact h.symm
  subst hcseq
  rcases hclaude with hnone | ⟨o, ho, hof⟩
  · refine ⟨rfl, cs2.response, ?_, hne2, Or.inl ⟨cs2, hcs, rfl⟩⟩
    rw [hnone]
  · obtain ⟨e, he⟩ := hof (ClaudeService.mkCurrentWeatherPrompt cs2.weatherData
      (jsStr (some city)))
    have hana : ClaudeService.analyzeCurrentWeather o cs2.weatherData
        (jsStr (some city)) =
        ClaudeService.fallbackCurrentWeatherResponse
          { wd with location := some loc } city := by
      unfold ClaudeService.analyzeCurrentWeather
      rw [he, hwdat2]
      rfl
    refine ⟨rfl, ClaudeService.fallbackCurrentWeatherResponse
      { wd with location := some loc } city, ?_, ?_, Or.inr rfl⟩
    · rw [ho]
      dsimp only
      rw [hana]
    · exact fallbackCurrentWeatherResponse_ne_empty _ _

/-- Witness for the template fallback: Paris in an environment with no
Claude service. -/
theorem weather_template_fallback_witness :
    (parisEnv.claude = none ∨
      ∃ o, parisEnv.claude = some o ∧ ∀ p, ∃ e, o.complete p = Except.error e) ∧
    (((WeatherMCPServer.callTool parisEnv {} 0 "get_weather"
        { city := some "Paris" }).2).isError = false ∧
     ∃ t, ((WeatherMCPServer.callTool parisEnv {} 0 "get_weather"
        { city := some "Paris" }).2).content = [⟨"text", t⟩] ∧ t ≠ "" ∧
      ((∃ cs, formatCurrentWeatherForChat
            { parisWeather with location := some parisLocation } = .ok cs ∧
          t = cs.response) ∨
       t = ClaudeService.fallbackCurrentWeatherResponse
             { parisWeather with location := some parisLocation } "Paris")) :=
  ⟨Or.inl rfl,
   weather_template_fallback parisEnv {} 0 "Paris" parisLocation parisWeather
     (Or.inl rfl) rfl rfl rfl rfl⟩

set_option maxRecDepth 8192

/-- C6: the Fahrenheit flag is threaded into the call but dropped at
`getWeatherForChat` (whose signature has no third parameter), so
`get_weather_fahrenheit` renders exactly the same text as `get_weather`
for the same city, and the rendered temperatures carry the Celsius unit
and never the Fahrenheit unit; the keyword heuristic
`detectFahrenheitPreference` is the case-insensitive substring match of
the claim (its fixed list includes the single letter "f", so any
message containing an "f" — "San Francisco" included — reports a
Fahrenheit preference). -/
theorem get_weather_fahrenheit_renders_celsius :
    (RealMCP.handleGetWeather parisEnv {} 0 (some "Paris") true).2 =
      (RealMCP.handleGetWeather parisEnv {} 0 (some "Paris") false).2 ∧
    (∃ t, (RealMCP.handleGetWeather parisEnv {} 0 (some "Paris") true).2.content =
        [⟨"text", t⟩] ∧
      strOccurs "°C" t = true ∧ strOccurs "°F" t = false) ∧
    RealMCP.detectFahrenheitPreference (some "show fahrenheit please") = true ∧
    RealMCP.detectFahrenheitPreference (some "San Francisco") = true ∧
    RealMCP.detectFahrenheitPreference (some "hello") = false := by
  refine ⟨rfl, ⟨_, rfl, ?_, ?_⟩, by decide, by decide, by decide⟩
  · decide
  · decide

end WeatherChat
